import Mathlib

/-!
Verification development for the IPM (Indeks Pembangunan Manusia) dashboard
in `src/app.py`.  The file embeds the algorithmic core of the script:

* `forecast_drift` (app.py lines 322-336): the point-target Drift projection
  of a single year-indexed component series;
* the tab-2 growth (mean year-over-year difference) forecasting loop
  (app.py lines 226-259);
* the tab-3 multi-region batch forecasting pipeline (app.py lines 341-437):
  required-column check, per-region Actual/Forecast row assembly, batch
  composite prediction, fill and rounding;
* the module-level model/data loading control flow (app.py lines 12-25).

Real numbers of the source (pandas floats) are modelled as rationals `ℚ`;
missing values (NaN) as `Option ℚ`; the opaque regression model as an
abstract function from feature vectors to `ℚ`.
-/

/-- Pandas `series.dropna()` for a year-indexed component series: keep, in
order, the (year, value) pairs whose value is present. -/
def dropna (s : List (ℤ × Option ℚ)) : List (ℤ × ℚ) :=
  s.filterMap (fun p => (p.2).map (fun v => (p.1, v)))

/-- Last element of a (year, value) list, `(0, 0)` on the empty list (that
default is never reached where `lastPair` is used).  Models `series.iloc[-1]`
together with `series.index[-1]`. -/
def lastPair : List (ℤ × ℚ) → ℤ × ℚ
  | [] => (0, 0)
  | [p] => p
  | _ :: q :: rest => lastPair (q :: rest)

/-- `forecast_drift(series, target_year)` of app.py lines 322-336.
The series is first cleaned with `dropna`.  With fewer than two clean points
the function returns the last clean value, or `0` when no clean point exists.
Otherwise `slope = (y_last - y_first) / (T - 1)` over the clean length `T`,
`h = target_year - last_year`, and the result is `y_last` when `h ≤ 0`, else
`y_last + h * slope`.  Note the source applies no clamping to zero. -/
def forecast_drift (s : List (ℤ × Option ℚ)) (target_year : ℤ) : ℚ :=
  match dropna s with
  | [] => 0
  | [p] => p.2
  | pf :: q :: rest =>
    let pl := lastPair (pf :: q :: rest)
    let T : ℚ := ((pf :: q :: rest).length : ℚ)
    let slope := (pl.2 - pf.2) / (T - 1)
    let h : ℤ := target_year - pl.1
    if h ≤ 0 then pl.2 else pl.2 + (h : ℚ) * slope

theorem lastPair_eq_of_getLast? (l : List (ℤ × ℚ)) (p : ℤ × ℚ)
    (h : l.getLast? = some p) : lastPair l = p := by
  induction l with
  | nil => simp at h
  | cons a tl ih =>
    cases tl with
    | nil =>
      simp only [List.getLast?_singleton, Option.some.injEq] at h
      simpa [lastPair] using h
    | cons b tl2 =>
      rw [List.getLast?_cons_cons] at h
      simpa [lastPair] using ih h

/-- Closed form of `forecast_drift` when the cleaned series has at least two
points: the first clean pair is `pf`, the last clean pair is `pl`, and the
result is `pl.2` for a non-future target, else `pl.2 + h * slope` with
`slope = (pl.2 - pf.2) / (T - 1)`. -/
theorem forecast_drift_formula (s : List (ℤ × Option ℚ)) (ty : ℤ) (pf pl : ℤ × ℚ)
    (hhead : (dropna s).head? = some pf)
    (hlast : (dropna s).getLast? = some pl)
    (hlen : 2 ≤ (dropna s).length) :
    forecast_drift s ty =
      if ty - pl.1 ≤ 0 then pl.2
      else pl.2 + ((ty - pl.1 : ℤ) : ℚ) *
        ((pl.2 - pf.2) / (((dropna s).length : ℚ) - 1)) := by
  rcases hd : dropna s with _ | ⟨a, _ | ⟨b, rest⟩⟩
  · rw [hd] at hlen; simp at hlen
  · rw [hd] at hlen; simp at hlen
  · rw [hd] at hhead hlast
    have hpf : pf = a := by
      have := hhead
      simp only [List.head?_cons, Option.some.injEq] at this
      exact this.symm
    have hpl : lastPair (a :: b :: rest) = pl :=
      lastPair_eq_of_getLast? _ _ hlast
    simp only [forecast_drift, hd, hpl, hpf]

/-- Helper: the last clean pair when the cleaned series has at least one
point, as an existence statement from a nonempty cleaned list. -/
theorem dropna_getLast?_isSome (s : List (ℤ × Option ℚ))
    (h : dropna s ≠ []) : (dropna s).getLast?.isSome := by
  rcases hd : dropna s with _ | ⟨a, tl⟩
  · exact absurd hd h
  · rw [List.getLast?_isSome]; simp

/-- C1 counterexample: on the series [(2018, 10), (2019, 0)] (negative slope
-10) the code projects -10 for 2020 and -50 for 2024: `forecast_drift` applies
no `max(0, _)` clamp, so projected values do go below zero, contradicting the
claim that all five projected values for horizon 5 equal 0. -/
theorem drift_clamp_counterexample :
    forecast_drift [(2018, some 10), (2019, some 0)] 2020 = -10 ∧
    forecast_drift [(2018, some 10), (2019, some 0)] 2024 = -50 ∧
    forecast_drift [(2018, some 10), (2019, some 0)] 2024 < 0 := by
  have hd : dropna [(2018, some 10), (2019, some 0)] = [(2018, 10), (2019, 0)] := by
    simp [dropna]
  refine ⟨?_, ?_, ?_⟩ <;>
    · rw [forecast_drift, hd]; norm_num [lastPair]

/-- C1 amended: `forecast_drift` applies no clamping at zero.  For a cleaned
series with at least two points and a strictly future target year, the result
is exactly `y_last + h * slope`; whenever that expression is negative the
returned value is negative. -/
theorem drift_unclamped_can_be_negative (s : List (ℤ × Option ℚ)) (ty : ℤ)
    (pf pl : ℤ × ℚ)
    (hhead : (dropna s).head? = some pf)
    (hlast : (dropna s).getLast? = some pl)
    (hlen : 2 ≤ (dropna s).length)
    (hfut : pl.1 < ty)
    (hneg : pl.2 + ((ty - pl.1 : ℤ) : ℚ) *
        ((pl.2 - pf.2) / (((dropna s).length : ℚ) - 1)) < 0) :
    forecast_drift s ty < 0 := by
  rw [forecast_drift_formula s ty pf pl hhead hlast hlen, if_neg (by omega)]
  exact hneg

theorem drift_unclamped_can_be_negative_witness :
    forecast_drift [(2018, some 10), (2019, some 0)] 2021 < 0 :=
  drift_unclamped_can_be_negative [(2018, some 10), (2019, some 0)] 2021
    (2018, 10) (2019, 0) (by decide) (by decide) (by decide) (by decide)
    (by rw [show dropna [(2018, some 10), (2019, some 0)] = [(2018, 10), (2019, 0)]
          from by simp [dropna]]
        norm_num)

/-- C4: for a cleaned series with at least two observed points and a target
year strictly past the last observed year, `forecast_drift` is the
non-compounding closed form: `slope = (y_last - y_first) / (T - 1)` from the
ORIGINAL first and last clean values, and the result is
`y_last + h * slope` with `h = target_year - last_year`.  The function reads
only the original series, so each future point is independent of previously
forecast points. -/
theorem drift_closed_form (s : List (ℤ × Option ℚ)) (ty : ℤ) (pf pl : ℤ × ℚ)
    (hhead : (dropna s).head? = some pf)
    (hlast : (dropna s).getLast? = some pl)
    (hlen : 2 ≤ (dropna s).length)
    (hfut : pl.1 < ty) :
    forecast_drift s ty =
      pl.2 + ((ty - pl.1 : ℤ) : ℚ) *
        ((pl.2 - pf.2) / (((dropna s).length : ℚ) - 1)) := by
  rw [forecast_drift_formula s ty pf pl hhead hlast hlen, if_neg (by omega)]

theorem drift_closed_form_witness :
    forecast_drift [(2018, some 10), (2019, some 14)] 2021 =
      (14 : ℚ) + ((2021 - 2019 : ℤ) : ℚ) *
        (((14 : ℚ) - 10) /
          (((dropna [(2018, some 10), (2019, some 14)]).length : ℚ) - 1)) :=
  drift_closed_form [(2018, some 10), (2019, some 14)] 2021
    (2018, 10) (2019, 14) (by decide) (by decide) (by decide) (by decide)

/-- C8: the point-target drift variant returns the last observed value
unchanged when the target year is at or before the last observed year
(`h ≤ 0`), and for a degenerate single-point cleaned series it returns that
single value repeated (a deliberate fallback, not an error). -/
theorem drift_point_target_edge_cases (s : List (ℤ × Option ℚ)) (ty : ℤ) :
    (∀ pl : ℤ × ℚ, (dropna s).getLast? = some pl → 2 ≤ (dropna s).length →
        ty ≤ pl.1 → forecast_drift s ty = pl.2) ∧
    (∀ p : ℤ × ℚ, dropna s = [p] → forecast_drift s ty = p.2) := by
  constructor
  · intro pl hlast hlen hty
    rcases hh : (dropna s).head? with _ | pf
    · rcases hd : dropna s with _ | ⟨a, tl⟩
      · rw [hd] at hlen; simp at hlen
      · rw [hd] at hh; simp at hh
    · rw [forecast_drift_formula s ty pf pl hh hlast hlen, if_pos (by omega)]
  · intro p hd
    rw [forecast_drift, hd]

theorem drift_point_target_edge_cases_witness :
    forecast_drift [(2018, some 3), (2019, some 10)] 2018 = 10 ∧
    forecast_drift [(2020, some 7)] 2030 = 7 :=
  ⟨(drift_point_target_edge_cases [(2018, some 3), (2019, some 10)] 2018).1
      (2019, 10) (by decide) (by decide) (by decide),
   (drift_point_target_edge_cases [(2020, some 7)] 2030).2
      (2020, 7) (by decide)⟩

/-- One row of the four component indicators, as handled by the tab-2
forecasting loop (app.py lines 226-259). -/
structure Components where
  uhh : ℚ
  hls : ℚ
  rls : ℚ
  pengeluaran : ℚ
deriving DecidableEq, Repr

/-- Consecutive differences of a value list: `series.diff()` with the leading
NaN dropped (pandas `mean` skips it). -/
def diffs : List ℚ → List ℚ
  | a :: b :: rest => (b - a) :: diffs (b :: rest)
  | _ => []

/-- Arithmetic mean of a value list; `0` on the empty list (pandas would give
NaN there; the paths using `mean` only reach it with a nonempty list). -/
def mean (l : List ℚ) : ℚ := l.sum / (l.length : ℚ)

/-- The per-component mean year-over-year differences, i.e. the `growth`
series of app.py line 233 computed from the region history sorted by year. -/
def meanGrowth (hist : List Components) : Components :=
  ⟨mean (diffs (hist.map Components.uhh)),
   mean (diffs (hist.map Components.hls)),
   mean (diffs (hist.map Components.rls)),
   mean (diffs (hist.map Components.pengeluaran))⟩

/-- One iteration of the tab-2 loop body (app.py lines 249-252):
`new[c] = current[c] + growth[c]` for each of the four components. -/
def growthStep (g c : Components) : Components :=
  ⟨c.uhh + g.uhh, c.hls + g.hls, c.rls + g.rls, c.pengeluaran + g.pengeluaran⟩

/-- The chained projection of app.py lines 244-259: each emitted row becomes
the `current` row of the next iteration. -/
def growthChain (g : Components) : Components → ℕ → List Components
  | _, 0 => []
  | cur, n + 1 =>
    let nxt := growthStep g cur
    nxt :: growthChain g nxt n

/-- The tab-2 growth (mean-diff) forecast: starting from the last observed
row, apply `growthStep` with the fixed mean growth, `horizon` times, chaining
each step from the previous projected row. -/
def growth_forecast (hist : List Components) (horizon : ℕ) : List Components :=
  match hist.getLast? with
  | none => []
  | some last => growthChain (meanGrowth hist) last horizon

/-- The claim example history: component value 70, 72, 74 over three years. -/
def histEx70 : List Components :=
  [⟨70, 70, 70, 70⟩, ⟨72, 72, 72, 72⟩, ⟨74, 74, 74, 74⟩]

theorem growthChain_zeroth (g cur : Components) (n : ℕ) (hn : 0 < n) :
    (growthChain g cur n)[0]? = some (growthStep g cur) := by
  cases n with
  | zero => omega
  | succ m => simp [growthChain]

theorem growthChain_succ_getElem (g cur : Components) (n i : ℕ)
    (hi : i + 1 < n) :
    (growthChain g cur n)[i + 1]? =
      ((growthChain g cur n)[i]?).map (growthStep g) := by
  induction n generalizing cur i with
  | zero => omega
  | succ m ih =>
    simp only [growthChain]
    cases i with
    | zero =>
      rw [List.getElem?_cons_succ, List.getElem?_cons_zero,
        growthChain_zeroth g _ m (by omega)]
      rfl
    | succ j =>
      rw [List.getElem?_cons_succ, List.getElem?_cons_succ]
      exact ih _ _ (by omega)

/-- C2: the tab-2 growth forecast compounds.  Step 0 is the last observed row
plus the mean growth, and every later step is the PREVIOUS projected row plus
the mean growth; on the example history 70, 72, 74 (mean diff 2), two steps
yield 76 then 78. -/
theorem growth_forecast_compounds (hist : List Components) (horizon i : ℕ)
    (hi : i + 1 < horizon) :
    (∀ last : Components, hist.getLast? = some last →
        (growth_forecast hist horizon)[0]? =
          some (growthStep (meanGrowth hist) last)) ∧
    (growth_forecast hist horizon)[i + 1]? =
      ((growth_forecast hist horizon)[i]?).map (growthStep (meanGrowth hist)) ∧
    growth_forecast histEx70 2 = [⟨76, 76, 76, 76⟩, ⟨78, 78, 78, 78⟩] := by
  refine ⟨?_, ?_, ?_⟩
  · intro last hlast
    rw [growth_forecast, hlast]
    exact growthChain_zeroth _ _ _ (by omega)
  · rcases hl : hist.getLast? with _ | last
    · rw [growth_forecast, hl]; rfl
    · rw [growth_forecast, hl]
      exact growthChain_succ_getElem _ _ _ _ hi
  · have h74 : histEx70.getLast? = some ⟨74, 74, 74, 74⟩ := by
      simp [histEx70]
    rw [growth_forecast, h74]
    norm_num [histEx70, meanGrowth, mean, diffs, growthChain, growthStep,
      Components.mk.injEq]

theorem growth_forecast_compounds_witness :
    (growth_forecast histEx70 2)[0 + 1]? =
      ((growth_forecast histEx70 2)[0]?).map (growthStep (meanGrowth histEx70)) :=
  ((growth_forecast_compounds histEx70 2 0 (by decide)).2).1

/-- One input row of the tab-3 upload after column normalization
(app.py lines 350-381): region name, year, the four components and the
optional composite indicator.  Missing numeric cells are `none`. -/
structure InRow where
  cakupan : String
  tahun : ℤ
  uhh : Option ℚ
  hls : Option ℚ
  rls : Option ℚ
  pengeluaran : Option ℚ
  ipm : Option ℚ
deriving DecidableEq, Repr

/-- One row of the tab-3 result table: the input fields plus the
`Tipe` tag (`Aktual` or `Forecast`, app.py lines 394 and 405). -/
structure OutRow where
  cakupan : String
  tahun : ℤ
  uhh : Option ℚ
  hls : Option ℚ
  rls : Option ℚ
  pengeluaran : Option ℚ
  ipm : Option ℚ
  tipe : String
deriving DecidableEq, Repr

/-- The model feature columns of one row, in training order
(`model_features` of app.py line 421). -/
structure FeatureVec where
  uhh : Option ℚ
  hls : Option ℚ
  rls : Option ℚ
  pengeluaran : Option ℚ
  tahun : ℤ
deriving DecidableEq, Repr

/-- App.py lines 392-395: an input row is emitted unchanged, tagged
`Aktual`. -/
def toActual (r : InRow) : OutRow :=
  ⟨r.cakupan, r.tahun, r.uhh, r.hls, r.rls, r.pengeluaran, r.ipm, "Aktual"⟩

/-- `df_indexed[col]`: the year-indexed series of one component column over
a region's rows (app.py line 398). -/
def seriesOf (f : InRow → Option ℚ) (rows : List InRow) :
    List (ℤ × Option ℚ) :=
  rows.map (fun r => (r.tahun, f r))

/-- `int(df_region["Tahun"].max())` (app.py line 397); `0` on an empty
region, which the grouping loop never produces. -/
def maxYear : List InRow → ℤ
  | [] => 0
  | r :: rs => rs.foldl (fun m x => max m x.tahun) r.tahun

/-- One synthesized `Forecast` row (app.py lines 402-409): every component
is drift-forecast from the region's original series, the composite is left
missing. -/
def forecastRow (region : String) (rows : List InRow) (yr : ℤ) : OutRow :=
  ⟨region, yr,
   some (forecast_drift (seriesOf InRow.uhh rows) yr),
   some (forecast_drift (seriesOf InRow.hls rows) yr),
   some (forecast_drift (seriesOf InRow.rls rows) yr),
   some (forecast_drift (seriesOf InRow.pengeluaran rows) yr),
   none, "Forecast"⟩

/-- App.py lines 400-411: when the last observed year is before the target
year, one `Forecast` row per year from `last_year + 1` to `target_year`. -/
def forecastRows (region : String) (rows : List InRow) (ty : ℤ) :
    List OutRow :=
  if maxYear rows < ty then
    (List.range (ty - maxYear rows).toNat).map
      (fun (k : ℕ) => forecastRow region rows (maxYear rows + 1 + (k : ℤ)))
  else []

/-- All rows contributed by one region: its input rows tagged `Aktual`
followed by its `Forecast` rows (app.py lines 391-411). -/
def regionOutput (region : String) (rows : List InRow) (ty : ℤ) :
    List OutRow :=
  rows.map toActual ++ forecastRows region rows ty

/-- Lexicographic order on the underlying character lists, the order pandas
uses to sort region names. -/
def strLt (a b : String) : Prop := a.data < b.data

instance : DecidableRel strLt := fun a b => by unfold strLt; infer_instance

/-- Row order of `df_proc.sort_values(by=["Cakupan", "Tahun"])`
(app.py line 381). -/
def rowLE (a b : InRow) : Prop :=
  strLt a.cakupan b.cakupan ∨ (a.cakupan = b.cakupan ∧ a.tahun ≤ b.tahun)

instance : DecidableRel rowLE := fun a b => by unfold rowLE; infer_instance

/-- The sorted upload table of app.py line 381. -/
def sortRows (rows : List InRow) : List InRow :=
  List.insertionSort rowLE rows

/-- App.py lines 384-418: group the sorted table by region (in first
occurrence order of `unique()`), emit each region's `Aktual` and `Forecast`
rows, and concatenate. -/
def tab3All (input : List InRow) (ty : ℤ) : List OutRow :=
  (((sortRows input).map InRow.cakupan).dedup.map
    (fun rg =>
      regionOutput rg
        ((sortRows input).filter (fun r => decide (r.cakupan = rg))) ty)).flatten

/-- The feature columns `df_final[model_features]` of one result row
(app.py line 423). -/
def featuresOf (r : OutRow) : FeatureVec :=
  ⟨r.uhh, r.hls, r.rls, r.pengeluaran, r.tahun⟩

/-- Round-half-to-even at integer precision, as numpy/pandas rounding
does. -/
def roundHalfEven (x : ℚ) : ℤ :=
  let f := Int.floor x
  let frac := x - (f : ℚ)
  if frac < 1 / 2 then f
  else if 1 / 2 < frac then f + 1
  else if f % 2 = 0 then f else f + 1

/-- `Series.round(2)` applied to one value (app.py line 432). -/
def round2 (x : ℚ) : ℚ := ((roundHalfEven (x * 100) : ℤ) : ℚ) / 100

/-- App.py lines 420-432: predict the composite for every row in one batch,
fill it only where the composite is missing, then round the whole column to
two decimals. -/
def finalize (predict : FeatureVec → ℚ) (l : List OutRow) : List OutRow :=
  l.map (fun r =>
    { r with ipm := some (round2 ((r.ipm).getD (predict (featuresOf r)))) })

/-- The full tab-3 pipeline after the schema check: group, forecast,
predict, fill and round. -/
def tab3Final (predict : FeatureVec → ℚ) (input : List InRow) (ty : ℤ) :
    List OutRow :=
  finalize predict (tab3All input ty)

/-- The required feature columns `wajib` of app.py line 368. -/
def wajib : List String := ["UHH", "HLS", "RLS", "Pengeluaran", "Tahun"]

/-- App.py line 369: every required column must be present. -/
def hasRequiredCols (cols : List String) : Bool :=
  wajib.all (fun c => cols.contains c)

/-- The error text of app.py line 370.  It interpolates only the constant
`wajib` list: the uploaded columns do not appear in it. -/
def schemaErrorMsg : String :=
  "Kolom wajib tidak lengkap. Pastikan ada: " ++ toString wajib

/-- App.py lines 369-371: the pipeline runs only when all required columns
are present, otherwise it stops with the fixed schema error message. -/
def tab3Run (predict : FeatureVec → ℚ) (cols : List String)
    (input : List InRow) (ty : ℤ) : Except String (List OutRow) :=
  if hasRequiredCols cols then Except.ok (tab3Final predict input ty)
  else Except.error schemaErrorMsg

/-- Modelled from the spec: the exact missing column names the spec says the
schema error should report (the source has no such computation; this
definition follows the words of the `SchemaError` contract). -/
def missingCols (cols : List String) : List String :=
  wajib.filter (fun c => !(cols.contains c))

theorem foldl_maxYear_le_self (l : List InRow) (init : ℤ) :
    init ≤ l.foldl (fun m x => max m x.tahun) init := by
  induction l generalizing init with
  | nil => simp
  | cons a tl ih =>
    rw [List.foldl_cons]
    exact le_trans (le_max_left _ _) (ih (max init a.tahun))

theorem foldl_maxYear_mem (l : List InRow) (init : ℤ) :
    l.foldl (fun m x => max m x.tahun) init = init ∨
      ∃ r ∈ l, l.foldl (fun m x => max m x.tahun) init = r.tahun := by
  induction l generalizing init with
  | nil => left; rfl
  | cons a tl ih =>
    rw [List.foldl_cons]
    rcases ih (max init a.tahun) with h | ⟨r, hr, he⟩
    · rcases max_choice init a.tahun with h2 | h2
      · left; rw [h, h2]
      · right; exact ⟨a, List.mem_cons_self a tl, by rw [h, h2]⟩
    · right; exact ⟨r, List.mem_cons_of_mem a hr, he⟩

theorem foldl_maxYear_elem_le (l : List InRow) (init : ℤ) (r : InRow)
    (hr : r ∈ l) : r.tahun ≤ l.foldl (fun m x => max m x.tahun) init := by
  induction l generalizing init with
  | nil => simp at hr
  | cons a tl ih =>
    rw [List.foldl_cons]
    rcases List.mem_cons.mp hr with h | hr2
    · rw [h]
      exact le_trans (le_max_right _ _) (foldl_maxYear_le_self tl _)
    · exact ih (max init a.tahun) hr2

theorem maxYear_is_ub (rows : List InRow) (r : InRow) (hr : r ∈ rows) :
    r.tahun ≤ maxYear rows := by
  cases rows with
  | nil => simp at hr
  | cons a tl =>
    show r.tahun ≤ tl.foldl (fun m x => max m x.tahun) a.tahun
    rcases List.mem_cons.mp hr with h | hr2
    · rw [h]; exact foldl_maxYear_le_self tl _
    · exact foldl_maxYear_elem_le tl _ _ hr2

theorem maxYear_is_attained (rows : List InRow) (hne : rows ≠ []) :
    ∃ r ∈ rows, maxYear rows = r.tahun := by
  cases rows with
  | nil => exact absurd rfl hne
  | cons a tl =>
    show ∃ r ∈ a :: tl, tl.foldl (fun m x => max m x.tahun) a.tahun = r.tahun
    rcases foldl_maxYear_mem tl a.tahun with h | ⟨r, hr, he⟩
    · exact ⟨a, List.mem_cons_self a tl, h⟩
    · exact ⟨r, List.mem_cons_of_mem a hr, he⟩

theorem maxYear_perm (l l2 : List InRow) (h : l.Perm l2) (hne : l ≠ []) :
    maxYear l = maxYear l2 := by
  have hne2 : l2 ≠ [] := by
    intro he
    exact hne (List.Perm.eq_nil (he ▸ h))
  obtain ⟨r, hr, he⟩ := maxYear_is_attained l hne
  obtain ⟨r2, hr2, he2⟩ := maxYear_is_attained l2 hne2
  have h1 : maxYear l ≤ maxYear l2 := by
    rw [he]; exact maxYear_is_ub l2 r (h.subset hr)
  have h2 : maxYear l2 ≤ maxYear l := by
    rw [he2]; exact maxYear_is_ub l r2 (h.symm.subset hr2)
  omega

theorem forecastRows_length (rg : String) (rows : List InRow) (ty : ℤ) :
    (forecastRows rg rows ty).length = (ty - maxYear rows).toNat := by
  rw [forecastRows]
  split
  · rw [List.length_map, List.length_range]
  · rename_i h
    rw [List.length_nil, Int.toNat_of_nonpos (by omega)]

theorem regionOutput_length (rg : String) (rows : List InRow) (ty : ℤ) :
    (regionOutput rg rows ty).length =
      rows.length + (ty - maxYear rows).toNat := by
  rw [regionOutput, List.length_append, List.length_map, forecastRows_length]

theorem forecastRows_mem (rg : String) (rows : List InRow) (ty : ℤ)
    (o : OutRow) (ho : o ∈ forecastRows rg rows ty) :
    o.cakupan = rg ∧ o.tipe = "Forecast" := by
  rw [forecastRows] at ho
  split at ho
  · obtain ⟨k, hk, rfl⟩ := List.mem_map.mp ho
    exact ⟨rfl, rfl⟩
  · simp at ho

theorem regionOutput_cakupan (rg : String) (rows : List InRow) (ty : ℤ)
    (hrows : ∀ r ∈ rows, r.cakupan = rg) :
    ∀ o ∈ regionOutput rg rows ty, o.cakupan = rg := by
  intro o ho
  rcases List.mem_append.mp ho with h | h
  · obtain ⟨r, hr, rfl⟩ := List.mem_map.mp h
    exact hrows r hr
  · exact (forecastRows_mem rg rows ty o h).1

theorem countP_finalize_cakupan (predict : FeatureVec → ℚ) (l : List OutRow)
    (rg : String) :
    List.countP (fun o => decide (o.cakupan = rg)) (finalize predict l) =
      List.countP (fun o => decide (o.cakupan = rg)) l := by
  rw [finalize, List.countP_map]
  rfl

theorem countP_finalize_forecast (predict : FeatureVec → ℚ) (l : List OutRow)
    (rg : String) :
    List.countP
        (fun o => decide (o.cakupan = rg) && decide (o.tipe = "Forecast"))
        (finalize predict l) =
      List.countP
        (fun o => decide (o.cakupan = rg) && decide (o.tipe = "Forecast"))
        l := by
  rw [finalize, List.countP_map]
  rfl

theorem sum_map_eq_single (l : List String) (f : String → ℕ) (rg : String)
    (hnd : l.Nodup) (hmem : rg ∈ l) (hz : ∀ x ∈ l, x ≠ rg → f x = 0) :
    (l.map f).sum = f rg := by
  induction l with
  | nil => simp at hmem
  | cons a tl ih =>
    rw [List.map_cons, List.sum_cons]
    rcases List.mem_cons.mp hmem with h | hmem2
    · have htl : (tl.map f).sum = 0 := by
        apply List.sum_eq_zero
        intro y hy
        obtain ⟨x, hx, rfl⟩ := List.mem_map.mp hy
        exact hz x (List.mem_cons_of_mem _ hx)
          (fun he => (List.nodup_cons.mp hnd).1 (h ▸ he ▸ hx))
      rw [htl, h]
      omega
    · have ha : f a = 0 :=
        hz a (List.mem_cons_self _ _)
          (fun he => (List.nodup_cons.mp hnd).1 (he ▸ hmem2))
      rw [ha, ih (List.nodup_cons.mp hnd).2 hmem2
        (fun x hx hne => hz x (List.mem_cons_of_mem _ hx) hne)]
      omega

theorem tab3All_countP (input : List InRow) (ty : ℤ) (q : OutRow → Bool) :
    List.countP q (tab3All input ty) =
      ((((sortRows input).map InRow.cakupan).dedup).map
        (fun rg' => List.countP q
          (regionOutput rg'
            ((sortRows input).filter (fun r => decide (r.cakupan = rg')))
            ty))).sum := by
  rw [tab3All, List.countP_flatten, List.map_map]
  rfl

theorem regionOutput_countP_ne (rg rg' : String) (rows : List InRow) (ty : ℤ)
    (hrows : ∀ r ∈ rows, r.cakupan = rg') (hne : rg' ≠ rg) :
    List.countP (fun o => decide (o.cakupan = rg))
        (regionOutput rg' rows ty) = 0 ∧
    List.countP
        (fun o => decide (o.cakupan = rg) && decide (o.tipe = "Forecast"))
        (regionOutput rg' rows ty) = 0 := by
  constructor <;>
  · rw [List.countP_eq_zero]
    intro o ho
    have hc := regionOutput_cakupan rg' rows ty hrows o ho
    simp [hc, hne]

theorem regionOutput_countP_self (rg : String) (rows : List InRow) (ty : ℤ)
    (hrows : ∀ r ∈ rows, r.cakupan = rg) :
    List.countP (fun o => decide (o.cakupan = rg))
        (regionOutput rg rows ty) =
      rows.length + (ty - maxYear rows).toNat ∧
    List.countP
        (fun o => decide (o.cakupan = rg) && decide (o.tipe = "Forecast"))
        (regionOutput rg rows ty) = (ty - maxYear rows).toNat := by
  constructor
  · have h1 : List.countP (fun o => decide (o.cakupan = rg))
        (regionOutput rg rows ty) = (regionOutput rg rows ty).length := by
      rw [List.countP_eq_length]
      intro o ho
      simp [regionOutput_cakupan rg rows ty hrows o ho]
    rw [h1, regionOutput_length]
  · rw [regionOutput, List.countP_append]
    have ha : List.countP
        (fun o => decide (o.cakupan = rg) && decide (o.tipe = "Forecast"))
        (rows.map toActual) = 0 := by
      rw [List.countP_eq_zero]
      intro o ho
      obtain ⟨r, hr, rfl⟩ := List.mem_map.mp ho
      intro hcontra
      have ht : (toActual r).tipe = "Aktual" := rfl
      rw [Bool.and_eq_true, decide_eq_true_eq, decide_eq_true_eq, ht]
        at hcontra
      exact absurd hcontra.2 (by decide)
    have hf : List.countP
        (fun o => decide (o.cakupan = rg) && decide (o.tipe = "Forecast"))
        (forecastRows rg rows ty) = (forecastRows rg rows ty).length := by
      rw [List.countP_eq_length]
      intro o ho
      obtain ⟨hc, ht⟩ := forecastRows_mem rg rows ty o ho
      simp [hc, ht]
    rw [ha, hf, forecastRows_length]
    omega

/-- C3: in a tab-3 batch run, the number of result rows carrying a given
region's name equals that region's input row count plus
`max(0, target_year - last observed year)`, and the surplus is exactly the
number of rows tagged `Forecast` for that region. -/
theorem batch_row_count (predict : FeatureVec → ℚ) (input : List InRow)
    (ty : ℤ) (rg : String) (hrg : rg ∈ input.map InRow.cakupan) :
    ((tab3Final predict input ty).countP
        (fun o => decide (o.cakupan = rg)) : ℤ) =
      (input.countP (fun r => decide (r.cakupan = rg)) : ℤ) +
        max 0 (ty - maxYear
          (input.filter (fun r => decide (r.cakupan = rg)))) ∧
    ((tab3Final predict input ty).countP
        (fun o => decide (o.cakupan = rg) && decide (o.tipe = "Forecast")) :
          ℤ) =
      max 0 (ty - maxYear
        (input.filter (fun r => decide (r.cakupan = rg)))) := by
  have hperm : (sortRows input).Perm input := List.perm_insertionSort _ _
  have hfilperm :
      ((sortRows input).filter (fun r => decide (r.cakupan = rg))).Perm
        (input.filter (fun r => decide (r.cakupan = rg))) :=
    hperm.filter _
  have hexr : ∃ r ∈ input, r.cakupan = rg := by
    obtain ⟨r, hr, he⟩ := List.mem_map.mp hrg
    exact ⟨r, hr, he⟩
  have hne : input.filter (fun r => decide (r.cakupan = rg)) ≠ [] := by
    obtain ⟨r, hr, he⟩ := hexr
    intro hnil
    have hmem : r ∈ input.filter (fun r => decide (r.cakupan = rg)) :=
      List.mem_filter.mpr ⟨hr, by simp [he]⟩
    rw [hnil] at hmem
    simp at hmem
  have hne2 :
      (sortRows input).filter (fun r => decide (r.cakupan = rg)) ≠ [] := by
    intro hnil
    rw [hnil] at hfilperm
    exact hne hfilperm.symm.eq_nil
  have hmy :
      maxYear ((sortRows input).filter (fun r => decide (r.cakupan = rg))) =
        maxYear (input.filter (fun r => decide (r.cakupan = rg))) :=
    maxYear_perm _ _ hfilperm hne2
  have hlenfil :
      ((sortRows input).filter (fun r => decide (r.cakupan = rg))).length =
        input.countP (fun r => decide (r.cakupan = rg)) := by
    rw [← List.countP_eq_length_filter]
    exact hperm.countP_eq _
  have hregrows :
      ∀ r ∈ (sortRows input).filter (fun r => decide (r.cakupan = rg)),
        r.cakupan = rg := by
    intro r hr
    have h2 := (List.mem_filter.mp hr).2
    simpa using h2
  have hrgmem : rg ∈ ((sortRows input).map InRow.cakupan).dedup := by
    rw [List.mem_dedup]
    exact ((hperm.map InRow.cakupan).mem_iff).mpr hrg
  have hnd := List.nodup_dedup ((sortRows input).map InRow.cakupan)
  have hother : ∀ rg' : String,
      (∀ r ∈ (sortRows input).filter (fun r => decide (r.cakupan = rg')),
        r.cakupan = rg') := by
    intro rg' r hr
    have h2 := (List.mem_filter.mp hr).2
    simpa using h2
  constructor
  · have hblockz : ∀ rg' ∈ ((sortRows input).map InRow.cakupan).dedup,
        rg' ≠ rg →
        List.countP (fun o => decide (o.cakupan = rg))
          (regionOutput rg'
            ((sortRows input).filter (fun r => decide (r.cakupan = rg')))
            ty) = 0 := by
      intro rg' _ hne'
      exact (regionOutput_countP_ne rg rg' _ ty (hother rg') hne').1
    rw [tab3Final, countP_finalize_cakupan, tab3All_countP,
      sum_map_eq_single _ _ rg hnd hrgmem hblockz,
      (regionOutput_countP_self rg _ ty hregrows).1, hlenfil, hmy]
    push_cast
    omega
  · have hblockz : ∀ rg' ∈ ((sortRows input).map InRow.cakupan).dedup,
        rg' ≠ rg →
        List.countP
          (fun o => decide (o.cakupan = rg) && decide (o.tipe = "Forecast"))
          (regionOutput rg'
            ((sortRows input).filter (fun r => decide (r.cakupan = rg')))
            ty) = 0 := by
      intro rg' _ hne'
      exact (regionOutput_countP_ne rg rg' _ ty (hother rg') hne').2
    rw [tab3Final, countP_finalize_forecast, tab3All_countP,
      sum_map_eq_single _ _ rg hnd hrgmem hblockz,
      (regionOutput_countP_self rg _ ty hregrows).2, hmy]
    omega

/-- A fixed concrete stand-in for the regression model in closed examples. -/
def predZero : FeatureVec → ℚ := fun _ => 0

/-- A concrete two-row single-region upload: region `A`, years 2021-2022. -/
def exC3 : List InRow :=
  [⟨"A", 2021, some 1, some 1, some 1, some 1, none⟩,
   ⟨"A", 2022, some 2, some 2, some 2, some 2, some 50⟩]

theorem batch_row_count_witness :
    ((tab3Final predZero exC3 2030).countP
        (fun o => decide (o.cakupan = "A")) : ℤ) =
      (exC3.countP (fun r => decide (r.cakupan = "A")) : ℤ) +
        max 0 (2030 - maxYear
          (exC3.filter (fun r => decide (r.cakupan = "A")))) ∧
    ((tab3Final predZero exC3 2030).countP
        (fun o => decide (o.cakupan = "A") && decide (o.tipe = "Forecast")) :
          ℤ) =
      max 0 (2030 - maxYear
        (exC3.filter (fun r => decide (r.cakupan = "A")))) :=
  batch_row_count predZero exC3 2030 "A" (by decide)

/-- A three-row batch: region `A` has exactly one observed year (2029),
region `B` has two (2028, 2029). -/
def exC5 : List InRow :=
  [⟨"A", 2029, some 5, some 5, some 5, some 5, some 60⟩,
   ⟨"B", 2028, some 1, some 1, some 1, some 1, none⟩,
   ⟨"B", 2029, some 2, some 2, some 2, some 2, none⟩]

/-- C5 counterexample: region `A` has exactly one observed year, yet the
batch run raises no error and does NOT omit or flag its forecast rows: it
emits an ordinary `Forecast` row for `A` whose components repeat the single
observed value 5 (the fallback), while region `B` also gets its forecast
row. -/
theorem insufficient_history_counterexample :
    ((tab3All exC5 2030).filter
        (fun o => decide (o.cakupan = "A") && decide (o.tipe = "Forecast"))) =
      [⟨"A", 2030, some 5, some 5, some 5, some 5, none, "Forecast"⟩] ∧
    (tab3All exC5 2030).countP
        (fun o => decide (o.cakupan = "B") && decide (o.tipe = "Forecast")) =
      1 := by
  decide

/-- C5 amended: a region with exactly one observed row is not skipped and no
error is raised: the pipeline still emits every `Forecast` row for it, with
each present component filled by repeating that row's single observed value
(the `forecast_drift` single-point fallback). -/
theorem single_year_region_fallback (rg : String) (r : InRow) (ty : ℤ)
    (vu vh vr vp : ℚ)
    (hu : r.uhh = some vu) (hh : r.hls = some vh) (hs : r.rls = some vr)
    (hp : r.pengeluaran = some vp) (_hty : r.tahun < ty) :
    (forecastRows rg [r] ty).length = (ty - r.tahun).toNat ∧
    ∀ o ∈ forecastRows rg [r] ty,
      o.uhh = some vu ∧ o.hls = some vh ∧ o.rls = some vr ∧
        o.pengeluaran = some vp ∧ o.tipe = "Forecast" := by
  have hfd : ∀ (f : InRow → Option ℚ) (v : ℚ), f r = some v →
      ∀ yr : ℤ, forecast_drift (seriesOf f [r]) yr = v := by
    intro f v hv yr
    have hd : dropna (seriesOf f [r]) = [(r.tahun, v)] := by
      simp [dropna, seriesOf, hv]
    rw [forecast_drift, hd]
  constructor
  · rw [forecastRows_length]
    rfl
  · intro o ho
    rw [forecastRows] at ho
    split at ho
    · obtain ⟨k, hk, rfl⟩ := List.mem_map.mp ho
      refine ⟨?_, ?_, ?_, ?_, rfl⟩
      · show some (forecast_drift (seriesOf InRow.uhh [r]) _) = some vu
        rw [hfd InRow.uhh vu hu]
      · show some (forecast_drift (seriesOf InRow.hls [r]) _) = some vh
        rw [hfd InRow.hls vh hh]
      · show some (forecast_drift (seriesOf InRow.rls [r]) _) = some vr
        rw [hfd InRow.rls vr hs]
      · show some (forecast_drift (seriesOf InRow.pengeluaran [r]) _) = some vp
        rw [hfd InRow.pengeluaran vp hp]
    · simp at ho

theorem single_year_region_fallback_witness :
    (forecastRows "A" [⟨"A", 2029, some 5, some 5, some 5, some 5, some 60⟩]
        2030).length = ((2030 : ℤ) - 2029).toNat ∧
    ∀ o ∈ forecastRows "A"
        [⟨"A", 2029, some 5, some 5, some 5, some 5, some 60⟩] 2030,
      o.uhh = some 5 ∧ o.hls = some 5 ∧ o.rls = some 5 ∧
        o.pengeluaran = some 5 ∧ o.tipe = "Forecast" :=
  single_year_region_fallback "A"
    ⟨"A", 2029, some 5, some 5, some 5, some 5, some 60⟩ 2030 5 5 5 5
    rfl rfl rfl rfl (by decide)

/-- The single input row used to refute the untouched-composite claim:
its composite 70.567 has three decimals. -/
def exRowC7 : InRow :=
  ⟨"W", 2030, some 70, some 13, some 9, some 11000000,
   some (70567 / 1000)⟩

/-- C7 counterexample: the Actual output row does NOT carry the input
composite unmodified; the fill step rounds the whole composite column to two
decimals, so input 70.567 comes out as 70.57. -/
theorem actual_ipm_rounded_counterexample :
    finalize predZero (regionOutput "W" [exRowC7] 2030) =
      [⟨"W", 2030, some 70, some 13, some 9, some 11000000,
        some (7057 / 100), "Aktual"⟩] ∧
    (7057 / 100 : ℚ) ≠ 70567 / 1000 := by
  constructor
  · have hfr : forecastRows "W" [exRowC7] 2030 = [] := by
      rw [forecastRows, if_neg (by decide)]
    rw [regionOutput, hfr, List.append_nil, finalize]
    simp only [List.map_cons, List.map_nil, List.cons.injEq, and_true]
    rw [OutRow.mk.injEq]
    refine ⟨rfl, rfl, rfl, rfl, rfl, rfl, ?_, rfl⟩
    show some (round2 ((70567 : ℚ) / 1000)) = some ((7057 : ℚ) / 100)
    exact congrArg some (by norm_num [round2, roundHalfEven])
  · norm_num

/-- C7 amended: every input row reappears at its own index as an `Aktual`
output row with all four component values identical to the input; its only
changed field is the composite, which becomes the input composite when
present (else the model prediction), rounded to two decimals. -/
theorem actual_rows_preserved (predict : FeatureVec → ℚ) (rg : String)
    (rows : List InRow) (ty : ℤ) (i : ℕ) (r : InRow)
    (hr : rows[i]? = some r) :
    (finalize predict (regionOutput rg rows ty))[i]? =
      some ⟨r.cakupan, r.tahun, r.uhh, r.hls, r.rls, r.pengeluaran,
        some (round2 ((r.ipm).getD
          (predict ⟨r.uhh, r.hls, r.rls, r.pengeluaran, r.tahun⟩))),
        "Aktual"⟩ := by
  have hi : i < rows.length := by
    by_contra hge
    push_neg at hge
    rw [List.getElem?_eq_none hge] at hr
    exact Option.noConfusion hr
  rw [finalize, regionOutput, List.map_append, List.getElem?_append,
    if_pos (by simpa using hi), List.map_map, List.getElem?_map, hr]
  rfl

theorem actual_rows_preserved_witness :
    (finalize predZero (regionOutput "W" [exRowC7] 2030))[0]? =
      some ⟨"W", 2030, some 70, some 13, some 9, some 11000000,
        some (round2 ((70567 / 1000 : ℚ))), "Aktual"⟩ :=
  actual_rows_preserved predZero "W" [exRowC7] 2030 0 exRowC7 rfl

/-- The region used for the all-missing-component scenario: its `UHH`
column is entirely missing. -/
def exC10 : List InRow :=
  [⟨"A", 2029, none, some 1, some 1, some 1, none⟩]

/-- C10: a component series that is empty after dropping missing values
drift-forecasts to 0, and a region whose component column is entirely
missing is not skipped: its `Forecast` rows are all still produced, with
that component zero-filled. -/
theorem empty_series_zero_fill (s : List (ℤ × Option ℚ)) (ty : ℤ)
    (rows : List InRow) (rg : String) :
    (dropna s = [] → forecast_drift s ty = 0) ∧
    ((∀ r ∈ rows, r.uhh = none) →
      (forecastRows rg rows ty).length = (ty - maxYear rows).toNat ∧
      ∀ o ∈ forecastRows rg rows ty,
        o.uhh = some 0 ∧ o.tipe = "Forecast") := by
  constructor
  · intro hd
    rw [forecast_drift, hd]
  · intro hall
    refine ⟨forecastRows_length rg rows ty, ?_⟩
    intro o ho
    refine ⟨?_, (forecastRows_mem rg rows ty o ho).2⟩
    rw [forecastRows] at ho
    split at ho
    · obtain ⟨k, hk, rfl⟩ := List.mem_map.mp ho
      show some (forecast_drift (seriesOf InRow.uhh rows) _) = some 0
      have hd : dropna (seriesOf InRow.uhh rows) = [] := by
        rw [dropna]
        rw [List.filterMap_eq_nil_iff]
        intro p hp
        obtain ⟨r2, hr2, rfl⟩ := List.mem_map.mp hp
        simp [hall r2 hr2]
      rw [forecast_drift, hd]
    · simp at ho

theorem empty_series_zero_fill_witness :
    forecast_drift [((2020 : ℤ), (none : Option ℚ))] 2030 = 0 ∧
    (forecastRows "A" exC10 2030).length = ((2030 : ℤ) - 2029).toNat ∧
    ∀ o ∈ forecastRows "A" exC10 2030,
      o.uhh = some 0 ∧ o.tipe = "Forecast" :=
  ⟨(empty_series_zero_fill [((2020 : ℤ), (none : Option ℚ))] 2030 exC10
      "A").1 (by decide),
   ((empty_series_zero_fill [((2020 : ℤ), (none : Option ℚ))] 2030 exC10
      "A").2 (by decide)).1,
   ((empty_series_zero_fill [((2020 : ℤ), (none : Option ℚ))] 2030 exC10
      "A").2 (by decide)).2⟩

/-- An upload whose columns lack only `RLS`. -/
def colsNoRLS : List String := ["UHH", "HLS", "Pengeluaran", "Tahun", "Cakupan"]

/-- An upload whose columns lack only `UHH`. -/
def colsNoUHH : List String := ["HLS", "RLS", "Pengeluaran", "Tahun", "Cakupan"]

/-- C6 counterexample: with only `RLS` missing the run aborts, but the
reported message is the fixed full required-column list: byte-identical to
the message for an upload missing `UHH` instead, although the exact missing
column sets (["RLS"] versus ["UHH"]) differ.  The error therefore reports
the full required set, not the exact missing names. -/
theorem schema_error_counterexample :
    tab3Run predZero colsNoRLS [] 2030 = Except.error schemaErrorMsg ∧
    tab3Run predZero colsNoUHH [] 2030 = Except.error schemaErrorMsg ∧
    missingCols colsNoRLS = ["RLS"] ∧
    missingCols colsNoUHH = ["UHH"] ∧
    missingCols colsNoRLS ≠ missingCols colsNoUHH := by
  refine ⟨?_, ?_, by decide, by decide, by decide⟩
  · rw [tab3Run, if_neg (by decide)]
  · rw [tab3Run, if_neg (by decide)]

/-- C6 amended: whenever one or more required feature columns are missing,
the operation aborts before any prediction, and the error is the one fixed
message interpolating the FULL required column set `wajib`: the same message
whatever the missing columns are, not the exact missing names. -/
theorem schema_error_full_set (predict : FeatureVec → ℚ) (cols : List String)
    (input : List InRow) (ty : ℤ)
    (hmiss : hasRequiredCols cols = false) :
    tab3Run predict cols input ty = Except.error schemaErrorMsg := by
  rw [tab3Run, if_neg (by simp [hmiss])]

theorem schema_error_full_set_witness :
    tab3Run predZero colsNoRLS exC3 2030 = Except.error schemaErrorMsg :=
  schema_error_full_set predZero colsNoRLS exC3 2030 (by decide)

/-- The loaded regression model artifact: its predict operation and its
recorded feature-name order (`loaded["model"], loaded["features"]` of
app.py lines 14-15). -/
structure LoadedModel where
  predict : FeatureVec → ℚ
  features : List String

/-- `load_model` of app.py lines 12-15: the deserialization result is
returned as is; there is no handling of a failed load (the argument stands
for the outcome of `joblib.load`, an external effect). -/
def load_model (raw : Except String LoadedModel) :
    Except String LoadedModel :=
  raw

/-- `load_data` of app.py lines 17-21: a missing history file yields `None`
rather than an error. -/
def load_data (hist : Option (List InRow)) : Option (List InRow) := hist

/-- The module-level control flow of app.py lines 24-25 together with the
tab-1 guard (lines 104-106): the script first runs
`model, feature_names = load_model()` with no try/except, so an exception
there aborts the entire page run before any tab is built; on success the
run reaches tab 1, whose historical visualization shows `df_hist` when
present. -/
def scriptRun (modelFile : Except String LoadedModel)
    (hist : Option (List InRow)) :
    Except String (Option (List InRow)) :=
  match load_model modelFile with
  | Except.error e => Except.error e
  | Except.ok _ => Except.ok (load_data hist)

/-- C9 counterexample: a failed model load is not surfaced as a recoverable
`ModelUnavailable` state: the whole script run fails with the raw error even
though the historical data is present, so the historical visualization is
NOT left available. -/
theorem model_load_failure_counterexample :
    scriptRun (Except.error "FileNotFoundError") (some exC3) =
      Except.error "FileNotFoundError" ∧
    ∀ v : Option (List InRow),
      scriptRun (Except.error "FileNotFoundError") (some exC3) ≠
        Except.ok v := by
  constructor
  · rfl
  · intro v h
    exact Except.noConfusion h

/-- C9 amended: a model-loading failure propagates uncaught out of the
module-level `load_model()` call: the whole script run aborts with the raw
error, so prediction AND historical visualization are both unavailable; no
`ModelUnavailable` recovery exists in the code. -/
theorem model_load_failure_aborts_run (e : String)
    (hist : Option (List InRow)) :
    scriptRun (Except.error e) hist = Except.error e := rfl
